import Mathlib

/-!
Shallow embedding of the day-planner task store and reminder engine from
`src/app/page.tsx`.

Modelling conventions:
* Instants are `Nat` milliseconds since the epoch.  The source keeps
  `scheduledFor` / `notifiedAt` / `createdAt` as ISO strings and converts with
  `new Date(s).getTime()` whenever it compares or sorts; since
  `toISOString`/parse round-trips instants exactly, we work with the parsed
  millisecond value directly.
* Date arithmetic (`setHours`, `setDate(+1)`, `setMinutes(+m)`) is modelled in
  a fixed-offset timezone: a day is `86400000` ms and the start of "today" is
  `now - now % 86400000`.
* `crypto.randomUUID()` is modelled by passing the fresh id(s) in as
  arguments; the per-alert random id is omitted (alerts are identified here by
  `taskId`, which is all the spec's counting properties use).
* `localStorage` is modelled as `Option (List RawTask)`: `none` when the slot
  is absent or its content fails to parse, `some rows` when it parses to an
  array of records.  A `RawTask` field is `none` when the JSON record lacks it
  (or, for the string fields, holds the empty string, which is falsy under the
  source's `!!task.id` style checks — see `keepRaw`).
-/

namespace Planner

/-- The `Task` record of `page.tsx` (lines 5-13). -/
structure Task where
  id : String
  title : String
  notes : String
  scheduledFor : Nat
  completed : Bool
  notifiedAt : Option Nat
  createdAt : Nat
deriving Repr, DecidableEq

/-- A template blueprint entry (`TemplateTask`, lines 15-20). -/
structure TemplateTask where
  title : String
  notes : String
  hour : Nat
  minute : Nat
deriving Repr, DecidableEq

/-- A template (`Template`, lines 22-26). -/
structure Template where
  name : String
  description : String
  tasks : List TemplateTask
deriving Repr, DecidableEq

/-- An ephemeral alert (`Alert`, lines 28-33).  The random `id` field is
omitted (see the module header); `message` is the composed display string. -/
structure Alert where
  taskId : String
  message : String
  triggeredAt : Nat
deriving Repr, DecidableEq

/-- A persisted JSON record as read back from storage: any field may be
missing.  `notifiedAt` distinguishes a missing field (`none`) from an
explicit JSON `null` (`some none`). -/
structure RawTask where
  id : Option String
  title : Option String
  notes : Option String
  scheduledFor : Option Nat
  completed : Option Bool
  notifiedAt : Option (Option Nat)
  createdAt : Option Nat
deriving Repr, DecidableEq

/-- JS truthiness of an optional string field: `!!task.id` is false when the
field is absent or the empty string. -/
def truthyStr : Option String → Bool
  | some s => !s.isEmpty
  | none => false

/-- The filter of `readTasks` (line 150): keep a record iff `!!task.id`,
`!!task.scheduledFor` and `!!task.title`.  (`!!task` itself — a null array
entry — is a record with every field absent, which this filter also drops.) -/
def keepRaw (r : RawTask) : Bool :=
  truthyStr r.id && r.scheduledFor.isSome && truthyStr r.title

/-- The per-record defaulting of `readTasks` (lines 151-155):
`notes: task.notes ?? ''`, `notifiedAt: task.notifiedAt ?? null`; every other
field is carried over by the spread.  An absent `completed` is `undefined`,
which is falsy everywhere the source reads it, hence `false` here; an absent
`createdAt` (purely informational, never read by any logic) is modelled as 0. -/
def rawToTask (r : RawTask) : Task :=
  { id := r.id.getD ""
    title := r.title.getD ""
    notes := r.notes.getD ""
    scheduledFor := r.scheduledFor.getD 0
    completed := r.completed.getD false
    notifiedAt := r.notifiedAt.getD none
    createdAt := r.createdAt.getD 0 }

/-- `readTasks` (lines 139-159): absent or unparseable storage yields `[]`;
otherwise drop records failing `keepRaw` and default-fill the rest. -/
def readTasks : Option (List RawTask) → List Task
  | none => []
  | some rows => (rows.filter keepRaw).map rawToTask

/-- Serialization of one task by `JSON.stringify` (every field present;
a null `notifiedAt` is written as an explicit JSON `null`). -/
def persistTask (t : Task) : RawTask :=
  { id := some t.id
    title := some t.title
    notes := some t.notes
    scheduledFor := some t.scheduledFor
    completed := some t.completed
    notifiedAt := some t.notifiedAt
    createdAt := some t.createdAt }

/-- `persistTasks` (lines 212-215): overwrite the storage slot with the
serialized list. -/
def persistTasks (ts : List Task) : Option (List RawTask) :=
  some (ts.map persistTask)

/-- The comparator of `sortTasks` (lines 161-167) as a boolean total
preorder: incomplete before completed, then ascending `scheduledFor`. -/
def taskLE (a b : Task) : Bool :=
  if a.completed != b.completed then !a.completed
  else a.scheduledFor ≤ b.scheduledFor

/-- `sortTasks` (lines 161-167).  JS `Array.prototype.sort` is stable and the
comparator is a total preorder, so it computes the stable sort, i.e.
`mergeSort`. -/
def sortTasks (tasks : List Task) : List Task :=
  tasks.mergeSort taskLE

/-- The canonical ordering invariant of the spec: incomplete tasks precede
completed ones and each group is ascending in `scheduledFor` — i.e. the list
is pairwise ordered under the sort comparator. -/
def canonicallyOrdered (tasks : List Task) : Prop :=
  tasks.Pairwise (fun a b => taskLE a b = true)

/-- Trigger eligibility (spec §3 invariant; the guard of the reminder tick,
lines 319-323): not completed, not yet notified, and due. -/
def eligible (now : Nat) (t : Task) : Bool :=
  !(t.completed || t.notifiedAt.isSome) && decide (t.scheduledFor ≤ now)

/-- The alert message composed by `triggerNotification` (line 291):
`` `${task.title} ${task.notes ? `• ${task.notes}` : ''}`.trim() ``. -/
def alertMessage (t : Task) : String :=
  (t.title ++ " " ++ (if t.notes.isEmpty then "" else "• " ++ t.notes)).trim

/-- A task as marked by the tick (line 326): `notifiedAt` set to the tick
instant, everything else untouched. -/
def markedTask (now : Nat) (t : Task) : Task :=
  { t with notifiedAt := some now }

/-- The alert pushed for a triggering task (`pushAlert` call, lines 302-307). -/
def alertFor (now : Nat) (t : Task) : Alert :=
  { taskId := t.id, message := alertMessage t, triggeredAt := now }

/-- One task's treatment inside the reminder tick's `map` (lines 318-329):
an eligible task is returned with `notifiedAt := now` together with the alert
it pushes; any other task is returned unchanged with no alert. -/
def tickStep (now : Nat) (task : Task) : Task × Option Alert :=
  if task.completed || task.notifiedAt.isSome then (task, none)
  else if task.scheduledFor ≤ now then (markedTask now task, some (alertFor now task))
  else (task, none)

/-- One reminder-engine tick (the `setInterval` body, lines 314-331): map
`tickStep` over the store; if anything changed, commit the re-sorted result,
otherwise return the previous list object unchanged.  The second component
collects the alerts pushed during the map, in store order.  (The source
computes the map once; it is repeated here only textually.) -/
def reminderTick (now : Nat) (tasks : List Task) : List Task × List Alert :=
  (if (tasks.map (tickStep now)).any (fun p => p.2.isSome)
   then sortTasks ((tasks.map (tickStep now)).map Prod.fst)
   else tasks,
   (tasks.map (tickStep now)).filterMap Prod.snd)

/-- The new task constructed by `handleAddTask` (lines 375-383). -/
def addedTask (formTitle formNotes : String) (scheduled nowMs : Nat)
    (newId : String) : Task :=
  { id := newId
    title := formTitle.trim
    notes := formNotes.trim
    scheduledFor := scheduled
    completed := false
    notifiedAt := none
    createdAt := nowMs }

/-- `handleAddTask` (lines 365-390).  `formTime` arrives already parsed:
`parsedTime = none` models both an empty `formTime` (`!formTime`, and
`new Date('')` is Invalid) and `Number.isNaN(scheduled.getTime())`; the
fresh id and the creation instant are passed in. -/
def handleAddTask (formTitle formNotes : String) (parsedTime : Option Nat)
    (nowMs : Nat) (newId : String) (tasks : List Task) : List Task :=
  if (formTitle.trim).isEmpty then tasks
  else
    match parsedTime with
    | none => tasks
    | some scheduled =>
        sortTasks (tasks ++ [addedTask formTitle formNotes scheduled nowMs newId])

/-- `handleToggleComplete` (lines 392-403): flip `completed` on the matching
task.  Note: no `sortTasks` here in the source. -/
def handleToggleComplete (taskId : String) (tasks : List Task) : List Task :=
  tasks.map fun task =>
    if task.id = taskId then { task with completed := !task.completed } else task

/-- `handleDeleteTask` (lines 405-407): drop the matching task. -/
def handleDeleteTask (taskId : String) (tasks : List Task) : List Task :=
  tasks.filter fun task => task.id ≠ taskId

/-- The rescheduled task produced by snoozing (lines 414-421):
`newDate.setMinutes(getMinutes() + minutes)` adds exactly `minutes * 60000`
ms in the fixed-offset time model. -/
def snoozedTask (now minutes : Nat) (t : Task) : Task :=
  { t with
    scheduledFor := now + minutes * 60000
    notifiedAt := none
    completed := false }

/-- `handleSnoozeTask` (lines 409-425): reschedule the matching task
`minutes` ahead of now, clear `notifiedAt`, force `completed := false`, and
re-sort. -/
def handleSnoozeTask (now : Nat) (taskId : String) (minutes : Nat)
    (tasks : List Task) : List Task :=
  sortTasks (tasks.map fun task =>
    if task.id ≠ taskId then task else snoozedTask now minutes task)

/-- Milliseconds per day, for the fixed-offset date model. -/
def msPerDay : Nat := 86400000

/-- `target.setHours(item.hour, item.minute, 0, 0)` on a copy of `now`:
today's instant at `hour:minute`. -/
def todayAt (now hour minute : Nat) : Nat :=
  (now / msPerDay) * msPerDay + hour * 3600000 + minute * 60000

/-- The scheduling rule of `handleApplyTemplate` (lines 431-435): today's
`hour:minute` if still in the future, else the same time tomorrow
(`target.setDate(target.getDate() + 1)`). -/
def nextOccurrence (now hour minute : Nat) : Nat :=
  let target := todayAt now hour minute
  if target ≤ now then target + msPerDay else target

/-- Materialization of one blueprint into a new task (lines 436-444). -/
def materialize (now : Nat) (newId : String) (item : TemplateTask) : Task :=
  { id := newId
    title := item.title
    notes := item.notes
    scheduledFor := nextOccurrence now item.hour item.minute
    completed := false
    notifiedAt := none
    createdAt := now }

/-- The list of new tasks produced by one template application; `ids` supplies
the fresh `createId()` values positionally. -/
def templateAdditions (now : Nat) (ids : List String) (template : Template) :
    List Task :=
  List.zipWith (materialize now) ids template.tasks

/-- `handleApplyTemplate` (lines 427-448): append the materialized blueprints
and re-sort. -/
def handleApplyTemplate (now : Nat) (ids : List String) (template : Template)
    (tasks : List Task) : List Task :=
  sortTasks (tasks ++ templateAdditions now ids template)

/-- `resetDay` (lines 450-455): empty the store and remove the storage slot. -/
def resetDay (_tasks : List Task) (_storage : Option (List RawTask)) :
    List Task × Option (List RawTask) :=
  ([], none)

/-! ## Concrete sample values (used by the closed witness theorems) -/

/-- Sample well-formed task used by concrete witnesses. -/
def sampleStretch : Task :=
  { id := "a"
    title := "Stretch"
    notes := ""
    scheduledFor := 600000
    completed := false
    notifiedAt := none
    createdAt := 0 }

/-- Sample raw record missing its `title`. -/
def rawMissingTitle : RawTask :=
  { id := some "x"
    title := none
    notes := none
    scheduledFor := some 5
    completed := none
    notifiedAt := none
    createdAt := none }

/-- Sample raw record with all required fields but missing optionals. -/
def rawMissingOptionals : RawTask :=
  { id := some "y"
    title := some "T"
    notes := none
    scheduledFor := some 7
    completed := some false
    notifiedAt := none
    createdAt := some 1 }

/-- Incomplete task due at 1000, used in the C2 counterexample. -/
def taskOne : Task :=
  { id := "t1"
    title := "One"
    notes := ""
    scheduledFor := 1000
    completed := false
    notifiedAt := none
    createdAt := 0 }

/-- Incomplete task due at 2000, used in the C2 counterexample. -/
def taskTwo : Task :=
  { id := "t2"
    title := "Two"
    notes := ""
    scheduledFor := 2000
    completed := false
    notifiedAt := none
    createdAt := 0 }

/-- Sample one-blueprint template for the C4 witness. -/
def sampleTemplate : Template :=
  { name := "Solo"
    description := "one blueprint"
    tasks := [{ title := "T", notes := "", hour := 7, minute := 30 }] }

/-! ## Helper lemmas -/

lemma taskLE_trans (a b c : Task) (hab : taskLE a b) (hbc : taskLE b c) :
    taskLE a c := by
  simp only [taskLE] at *
  by_cases ha : a.completed = true <;> by_cases hb : b.completed = true <;>
    by_cases hc : c.completed = true <;> simp_all <;> omega

lemma taskLE_total (a b : Task) : taskLE a b || taskLE b a := by
  simp only [taskLE]
  by_cases ha : a.completed = true <;> by_cases hb : b.completed = true <;>
    simp_all <;> omega

lemma sortTasks_perm (tasks : List Task) : (sortTasks tasks).Perm tasks :=
  List.mergeSort_perm tasks taskLE

lemma sortTasks_ordered (tasks : List Task) : canonicallyOrdered (sortTasks tasks) :=
  List.sorted_mergeSort taskLE_trans taskLE_total tasks

lemma rawToTask_persistTask (t : Task) : rawToTask (persistTask t) = t := rfl

lemma keepRaw_persistTask (t : Task) (hid : t.id ≠ "") (htitle : t.title ≠ "") :
    keepRaw (persistTask t) = true := by
  have h1 : t.id.isEmpty = false := by
    cases h : t.id.isEmpty
    · rfl
    · exact absurd ((String.isEmpty_iff t.id).mp h) hid
  have h2 : t.title.isEmpty = false := by
    cases h : t.title.isEmpty
    · rfl
    · exact absurd ((String.isEmpty_iff t.title).mp h) htitle
  simp [keepRaw, persistTask, truthyStr, h1, h2]

end Planner

namespace Planner

/-! ## C3: persistence round-trip -/

/-- C3: for every list of well-formed tasks (non-empty `id` and `title`;
`scheduledFor` is always a valid instant in this model, i.e. serializes to a
non-empty string), `load` applied to the persisted serialization returns the
original list — equality up to default-filling is plain equality here because
persistence writes every field. -/
theorem c3_load_persist_roundtrip (ts : List Task)
    (hwf : ∀ t ∈ ts, t.id ≠ "" ∧ t.title ≠ "") :
    readTasks (persistTasks ts) = ts := by
  induction ts with
  | nil => rfl
  | cons t rest ih =>
      have ht := hwf t (List.mem_cons_self _ _)
      have hrest : ∀ u ∈ rest, u.id ≠ "" ∧ u.title ≠ "" := fun u hu =>
        hwf u (List.mem_cons_of_mem _ hu)
      have hkeep := keepRaw_persistTask t ht.1 ht.2
      simpa [readTasks, persistTasks, List.filter_cons, hkeep,
        rawToTask_persistTask] using ih hrest

/-- Witness for C3 at a concrete singleton store. -/
theorem c3_load_persist_roundtrip_witness :
    readTasks (persistTasks [sampleStretch]) = [sampleStretch] :=
  c3_load_persist_roundtrip _ (by decide)

/-! ## C7: load drops broken records, defaults optional fields -/

/-- C7: `load` drops every record missing a required field (`id`, `title`,
`scheduledFor`), keeps exactly the records passing `keepRaw` (default-filling
a missing `notes` with `""` and a missing `notifiedAt` with `null`), and
yields the empty store on absent or unparseable content. -/
theorem c7_load_drops_and_defaults (rows : List RawTask) (r rk : RawTask)
    (hmiss : r.id = none ∨ r.title = none ∨ r.scheduledFor = none)
    (hkeep : keepRaw rk = true) (hnotes : rk.notes = none)
    (hnotif : rk.notifiedAt = none) :
    readTasks none = [] ∧
    readTasks (some rows) = (rows.filter keepRaw).map rawToTask ∧
    keepRaw r = false ∧
    (rawToTask rk).notes = "" ∧ (rawToTask rk).notifiedAt = none := by
  refine ⟨rfl, rfl, ?_, ?_, ?_⟩
  · rcases hmiss with h | h | h <;> simp [keepRaw, truthyStr, h]
  · simp [rawToTask, hnotes]
  · simp [rawToTask, hnotif]

/-- Witness for C7: a record with a missing title is dropped; a kept record
with missing `notes`/`notifiedAt` is default-filled. -/
theorem c7_load_drops_and_defaults_witness :
    keepRaw rawMissingTitle = false ∧ (rawToTask rawMissingOptionals).notes = "" := by
  have h := c7_load_drops_and_defaults [] rawMissingTitle rawMissingOptionals
    (Or.inr (Or.inl rfl)) (by decide) rfl rfl
  exact ⟨h.2.2.1, h.2.2.2.1⟩

/-! ## C8: reset empties the store and storage -/

/-- C8: `resetAll` on any store yields the empty in-memory store, erases the
persisted slot, and a subsequent `load` of that slot returns the empty list. -/
theorem c8_reset_empties_store_and_storage (ts : List Task)
    (st : Option (List RawTask)) :
    (resetDay ts st).1 = [] ∧ (resetDay ts st).2 = none ∧
    readTasks (resetDay ts st).2 = [] :=
  ⟨rfl, rfl, rfl⟩

/-! ## C5: snooze re-arms the task -/

/-- C5: for every task present in the store, `snooze(id, 5)` reschedules it to
`now + 5` minutes, clears `notifiedAt`, forces `completed := false`, and the
rescheduled task is eligible for triggering again at any instant at or past
the new `scheduledFor`. -/
theorem c5_snooze_rearms (now : Nat) (id : String) (tasks : List Task)
    (t : Task) (hmem : t ∈ tasks) (hid : t.id = id) :
    ∃ t' ∈ handleSnoozeTask now id 5 tasks,
      t'.id = id ∧ t'.scheduledFor = now + 5 * 60000 ∧
      t'.notifiedAt = none ∧ t'.completed = false ∧
      ∀ later, now + 5 * 60000 ≤ later → eligible later t' = true := by
  refine ⟨snoozedTask now 5 t, ?_, hid, rfl, rfl, rfl, ?_⟩
  · have hmem' : snoozedTask now 5 t ∈ tasks.map (fun task =>
        if task.id ≠ id then task else snoozedTask now 5 task) := by
      refine List.mem_map.mpr ⟨t, hmem, ?_⟩
      simp [hid]
    exact (sortTasks_perm _).mem_iff.mpr hmem'
  · intro later hlater
    simp [eligible, snoozedTask, hlater]

/-- Witness for C5 on a concrete singleton store. -/
theorem c5_snooze_rearms_witness :
    ∃ t' ∈ handleSnoozeTask 0 "a" 5 [sampleStretch],
      t'.id = "a" ∧ t'.scheduledFor = 0 + 5 * 60000 ∧
      t'.notifiedAt = none ∧ t'.completed = false ∧
      ∀ later, 0 + 5 * 60000 ≤ later → eligible later t' = true :=
  c5_snooze_rearms 0 "a" [sampleStretch] sampleStretch (by simp) rfl

/-! ## C6: add validates silently, otherwise appends one task -/

/-- C6: `add` is a silent no-op when the title is empty/whitespace-only or the
timestamp does not parse; otherwise the committed store is the old one plus
exactly one new task with `completed = false` and `notifiedAt = null`
(re-sorted, hence stated as a permutation of the append). -/
theorem c6_add_validates_or_appends (formTitle formNotes : String)
    (pt : Option Nat) (nowMs : Nat) (newId : String) (tasks : List Task) :
    (((formTitle.trim).isEmpty = true ∨ pt = none) →
        handleAddTask formTitle formNotes pt nowMs newId tasks = tasks) ∧
    (∀ scheduled, pt = some scheduled → (formTitle.trim).isEmpty = false →
        ∃ newTask,
          (handleAddTask formTitle formNotes pt nowMs newId tasks).Perm
            (tasks ++ [newTask]) ∧
          newTask.completed = false ∧ newTask.notifiedAt = none ∧
          newTask.title = formTitle.trim ∧ newTask.notes = formNotes.trim ∧
          newTask.scheduledFor = scheduled) := by
  constructor
  · rintro (h | h) <;> simp [handleAddTask, h]
  · rintro scheduled rfl h
    refine ⟨addedTask formTitle formNotes scheduled nowMs newId, ?_, rfl, rfl,
      rfl, rfl, rfl⟩
    simp only [handleAddTask, h, Bool.false_eq_true, if_false]
    exact sortTasks_perm _

/-- Witness for C6: an unparseable timestamp makes `add` a no-op. -/
theorem c6_add_validates_or_appends_witness :
    handleAddTask "Stretch" "" none 0 "i" [] = [] :=
  (c6_add_validates_or_appends "Stretch" "" none 0 "i" []).1 (Or.inr rfl)

/-! ## C9: operations on an absent id are no-ops -/

/-- C9: for an id not present in the store, toggle and delete return the list
unchanged, and snooze changes no task and adds/removes none (it only re-sorts,
hence stated as a permutation). -/
theorem c9_missing_id_ops_are_noops (now : Nat) (id : String)
    (tasks : List Task) (habsent : ∀ t ∈ tasks, t.id ≠ id) :
    handleToggleComplete id tasks = tasks ∧
    handleDeleteTask id tasks = tasks ∧
    (handleSnoozeTask now id 5 tasks).Perm tasks := by
  have hmap : tasks.map (fun task =>
      if task.id ≠ id then task else snoozedTask now 5 task) = tasks := by
    have := List.map_congr_left (l := tasks)
      (f := fun task => if task.id ≠ id then task else snoozedTask now 5 task)
      (g := fun t => t) (fun a ha => by simp [habsent a ha])
    simpa using this
  refine ⟨?_, ?_, ?_⟩
  · have := List.map_congr_left (l := tasks)
      (f := fun task =>
        if task.id = id then { task with completed := !task.completed } else task)
      (g := fun t => t) (fun a ha => by simp [habsent a ha])
    simpa [handleToggleComplete] using this
  · exact List.filter_eq_self.mpr (fun a ha => by simpa using habsent a ha)
  · rw [handleSnoozeTask, hmap]
    exact sortTasks_perm _

/-- Witness for C9 on a concrete store and an absent id. -/
theorem c9_missing_id_ops_are_noops_witness :
    handleToggleComplete "zzz" [sampleStretch] = [sampleStretch] ∧
    handleDeleteTask "zzz" [sampleStretch] = [sampleStretch] ∧
    (handleSnoozeTask 0 "zzz" 5 [sampleStretch]).Perm [sampleStretch] :=
  c9_missing_id_ops_are_noops 0 "zzz" [sampleStretch] (by decide)

/-! ## C2: canonical ordering after mutations -/

/-- C2 fails as stated: `toggleCompleted` does not re-sort (no `sortTasks` in
`handleToggleComplete`, lines 392-403), so toggling the first of two
incomplete tasks leaves a completed task ahead of an incomplete one. -/
theorem c2_counterexample :
    canonicallyOrdered [taskOne, taskTwo] ∧
    ¬ canonicallyOrdered (handleToggleComplete "t1" [taskOne, taskTwo]) := by
  constructor
  · simp only [canonicallyOrdered]
    decide
  · simp only [canonicallyOrdered, handleToggleComplete]
    decide

/-- C2 as amended: after add, snooze, applyTemplate, delete, and a reminder
tick, a canonically ordered store is still canonically ordered (add commits,
snooze, applyTemplate and the tick's marking pass re-sort; delete preserves
the existing order); `toggleCompleted` is excluded since it does not re-sort. -/
theorem c2_amended_ops_preserve_order (formTitle formNotes : String)
    (pt : Option Nat) (nowMs now tickNow : Nat) (newId id : String)
    (minutes : Nat) (ids : List String) (template : Template)
    (tasks : List Task) (hsorted : canonicallyOrdered tasks) :
    canonicallyOrdered (handleAddTask formTitle formNotes pt nowMs newId tasks) ∧
    canonicallyOrdered (handleSnoozeTask now id minutes tasks) ∧
    canonicallyOrdered (handleApplyTemplate now ids template tasks) ∧
    canonicallyOrdered (handleDeleteTask id tasks) ∧
    canonicallyOrdered (reminderTick tickNow tasks).1 := by
  refine ⟨?_, sortTasks_ordered _, sortTasks_ordered _, ?_, ?_⟩
  · by_cases h1 : (formTitle.trim).isEmpty = true
    · simpa [handleAddTask, h1] using hsorted
    · match pt with
      | none => simpa [handleAddTask, h1] using hsorted
      | some scheduled =>
          have heq : handleAddTask formTitle formNotes (some scheduled) nowMs
              newId tasks =
              sortTasks (tasks ++
                [addedTask formTitle formNotes scheduled nowMs newId]) := by
            simp [handleAddTask, h1]
          rw [heq]
          exact sortTasks_ordered _
  · exact List.Pairwise.sublist (List.filter_sublist tasks) hsorted
  · rw [reminderTick]
    split
    · exact sortTasks_ordered _
    · exact hsorted

/-- Witness for the amended C2 on a concrete two-task store. -/
theorem c2_amended_ops_preserve_order_witness :
    canonicallyOrdered (handleSnoozeTask 0 "t1" 5 [taskOne, taskTwo]) :=
  (c2_amended_ops_preserve_order "x" "" none 0 0 0 "i" "t1" 5 []
    { name := "n", description := "", tasks := [] } [taskOne, taskTwo]
    (by simp only [canonicallyOrdered]; decide)).2.1

/-! ## C4: template application -/

/-- C4: applying a template commits the old tasks plus exactly
`template.tasks.length` materialized blueprints (re-sorted, hence stated as a
permutation of the append, which also leaves every pre-existing task's fields
unchanged); the i-th new task is scheduled by `nextOccurrence` at the i-th
blueprint's `hour:minute` — today's instant when still in the future at
application time, otherwise the same time tomorrow — with `completed = false`
and `notifiedAt = null`. -/
theorem c4_template_appends_blueprints (now : Nat) (ids : List String)
    (template : Template) (tasks : List Task)
    (hlen : ids.length = template.tasks.length) :
    (handleApplyTemplate now ids template tasks).Perm
      (tasks ++ templateAdditions now ids template) ∧
    (templateAdditions now ids template).length = template.tasks.length ∧
    (handleApplyTemplate now ids template tasks).length =
      tasks.length + template.tasks.length ∧
    (∀ (i : Nat) (item : TemplateTask) (fid : String),
        template.tasks[i]? = some item → ids[i]? = some fid →
        (templateAdditions now ids template)[i]? =
          some (materialize now fid item)) ∧
    (∀ (i : Nat) (newTask : Task),
        (templateAdditions now ids template)[i]? = some newTask →
        newTask.completed = false ∧ newTask.notifiedAt = none) ∧
    (∀ h m, (now < todayAt now h m →
               nextOccurrence now h m = todayAt now h m) ∧
            (todayAt now h m ≤ now →
               nextOccurrence now h m = todayAt now h m + msPerDay)) := by
  have hadd : (templateAdditions now ids template).length =
      template.tasks.length := by
    simp [templateAdditions, hlen]
  refine ⟨sortTasks_perm _, hadd, ?_, ?_, ?_, ?_⟩
  · rw [handleApplyTemplate, (sortTasks_perm _).length_eq, List.length_append,
      hadd]
  · intro i item fid hitem hfid
    simp [templateAdditions, List.getElem?_zipWith, hitem, hfid]
  · intro i newTask hget
    rcases h1 : ids[i]? with _ | fid
    · simp [templateAdditions, List.getElem?_zipWith, h1] at hget
    · rcases h2 : template.tasks[i]? with _ | item
      · simp [templateAdditions, List.getElem?_zipWith, h1, h2] at hget
      · simp [templateAdditions, List.getElem?_zipWith, h1, h2] at hget
        rw [← hget]
        exact ⟨rfl, rfl⟩
  · intro h m
    constructor
    · intro hfut
      rw [nextOccurrence, if_neg (by omega)]
    · intro hpast
      rw [nextOccurrence, if_pos hpast]

/-- Witness for C4 on a concrete template application. -/
theorem c4_template_appends_blueprints_witness :
    (handleApplyTemplate 0 ["x"] sampleTemplate [sampleStretch]).Perm
      ([sampleStretch] ++ templateAdditions 0 ["x"] sampleTemplate) ∧
    (templateAdditions 0 ["x"] sampleTemplate).length = 1 :=
  ⟨(c4_template_appends_blueprints 0 ["x"] sampleTemplate [sampleStretch] rfl).1,
   (c4_template_appends_blueprints 0 ["x"] sampleTemplate [sampleStretch] rfl).2.1⟩

/-! ## Reminder tick lemmas -/

lemma tickStep_fst (now : Nat) (t : Task) :
    (tickStep now t).1 = if eligible now t then markedTask now t else t := by
  rw [tickStep, eligible]
  by_cases h1 : (t.completed || t.notifiedAt.isSome) = true <;>
    by_cases h2 : t.scheduledFor ≤ now <;> simp [h1, h2]

lemma tickStep_snd (now : Nat) (t : Task) :
    (tickStep now t).2 = if eligible now t then some (alertFor now t) else none := by
  rw [tickStep, eligible]
  by_cases h1 : (t.completed || t.notifiedAt.isSome) = true <;>
    by_cases h2 : t.scheduledFor ≤ now <;> simp [h1, h2]

lemma tickStep_fst_id (now : Nat) (t : Task) : ((tickStep now t).1).id = t.id := by
  rw [tickStep_fst]
  split <;> rfl

lemma tickStep_snd_isSome (now : Nat) (t : Task) :
    ((tickStep now t).2).isSome = eligible now t := by
  rw [tickStep_snd]
  by_cases h : eligible now t = true <;> simp [h]

lemma reminderTick_alerts (now : Nat) (tasks : List Task) :
    (reminderTick now tasks).2 =
      tasks.filterMap (fun t => (tickStep now t).2) := by
  rw [reminderTick]
  exact List.filterMap_map _ _ _

lemma reminderTick_fst_perm (now : Nat) (tasks : List Task) :
    (reminderTick now tasks).1.Perm
      (tasks.map (fun t => (tickStep now t).1)) := by
  rw [reminderTick]
  dsimp only
  rw [List.map_map]
  split
  · exact sortTasks_perm _
  · rename_i hchanged
    have hnone : ∀ t ∈ tasks, (tickStep now t).1 = t := by
      intro t ht
      have h2 : ((tickStep now t).2).isSome = false := by
        cases hh : ((tickStep now t).2).isSome
        · rfl
        · exact absurd (List.any_eq_true.mpr
            ⟨tickStep now t, List.mem_map_of_mem (tickStep now) ht, hh⟩)
            hchanged
      rw [tickStep_fst]
      rw [tickStep_snd_isSome] at h2
      simp [h2]
    have : tasks.map (fun t => (tickStep now t).1) = tasks := by
      have := List.map_congr_left (l := tasks)
        (f := fun t => (tickStep now t).1) (g := fun t => t)
        (fun a ha => hnone a ha)
      simpa using this
    rw [this]

lemma tick_changed_eq (now : Nat) (tasks : List Task) :
    (tasks.map (tickStep now)).any (fun p => p.2.isSome) =
      tasks.any (eligible now) := by
  induction tasks with
  | nil => rfl
  | cons a rest ih => simp [List.any_cons, ih, tickStep_snd_isSome]

lemma tick_alert_countP (now : Nat) (tasks : List Task) (tid : String) :
    ((reminderTick now tasks).2).countP (fun a => a.taskId == tid) =
      tasks.countP (fun u => (u.id == tid) && eligible now u) := by
  rw [reminderTick_alerts, List.countP_filterMap]
  have : (fun t =>
      (((tickStep now t).2).map (fun a => a.taskId == tid)).getD false) =
      (fun u => (u.id == tid) && eligible now u) := by
    funext u
    rw [tickStep_snd]
    by_cases h : eligible now u = true <;> simp [h, alertFor]
  rw [this]

lemma countP_id_unique (tasks : List Task) (t : Task) (q : Task → Bool)
    (hnodup : (tasks.map Task.id).Nodup) (hmem : t ∈ tasks) (hq : q t = true) :
    tasks.countP (fun u => (u.id == t.id) && q u) = 1 := by
  induction tasks with
  | nil => cases hmem
  | cons a rest ih =>
      rw [List.map_cons, List.nodup_cons] at hnodup
      rcases List.mem_cons.mp hmem with rfl | hmem'
      · rw [List.countP_cons_of_pos _ _ (by simp [hq])]
        have hz : rest.countP (fun u => (u.id == t.id) && q u) = 0 := by
          rw [List.countP_eq_zero]
          intro u hu
          have hne : u.id ≠ t.id := fun he =>
            hnodup.1 (he ▸ List.mem_map_of_mem Task.id hu)
          simp [hne]
        rw [hz]
      · have hne : a.id ≠ t.id := by
          intro he
          exact hnodup.1 (he ▸ List.mem_map_of_mem Task.id hmem')
        rw [List.countP_cons_of_neg _ _ (by simp [hne]),
          ih hnodup.2 hmem']

lemma countP_id_zero (tasks : List Task) (tid : String) (q : Task → Bool)
    (h : ∀ u ∈ tasks, u.id = tid → q u = false) :
    tasks.countP (fun u => (u.id == tid) && q u) = 0 := by
  rw [List.countP_eq_zero]
  intro u hu
  by_cases hid : u.id = tid
  · simp [h u hu hid]
  · simp [hid]

lemma mem_tick_fst (now : Nat) (tasks : List Task) (u : Task)
    (hu : u ∈ (reminderTick now tasks).1) :
    ∃ v ∈ tasks, u = (tickStep now v).1 := by
  have hmem := (reminderTick_fst_perm now tasks).mem_iff.mp hu
  rcases List.mem_map.mp hmem with ⟨v, hv, he⟩
  exact ⟨v, hv, he.symm⟩

lemma tick_marked_of_id (now : Nat) (tasks : List Task) (t : Task)
    (hmem : t ∈ tasks) (hnodup : (tasks.map Task.id).Nodup)
    (helig : eligible now t = true) (u : Task)
    (hu : u ∈ (reminderTick now tasks).1) (hid : u.id = t.id) :
    u = markedTask now t := by
  rcases mem_tick_fst now tasks u hu with ⟨v, hv, rfl⟩
  have hvid : v.id = t.id := by
    rw [← tickStep_fst_id now v]
    exact hid
  have hvt : v = t := List.inj_on_of_nodup_map hnodup hv hmem hvid
  subst hvt
  simp [tickStep_fst, helig]

lemma eligible_fields (now : Nat) (t : Task) (h : eligible now t = true) :
    t.completed = false ∧ t.notifiedAt = none ∧ t.scheduledFor ≤ now := by
  rw [eligible] at h
  by_cases hc : t.completed = true
  · simp [hc] at h
  · rcases hn : t.notifiedAt with _ | v
    · exact ⟨by simpa using hc, rfl, by simpa [hc, hn] using h⟩
    · simp [hn] at h

/-! ## C10: the tick's frame conditions -/

/-- C10: one reminder tick returns a permutation of the per-task images of
`tickStep` (so no task is added or removed); `tickStep` preserves every field
except `notifiedAt`, which it either leaves alone or sets from `null` to the
tick instant; and when no task is eligible the list is returned exactly
unchanged — not re-sorted. -/
theorem c10_tick_frame (now : Nat) (tasks : List Task) :
    (reminderTick now tasks).1.Perm
      (tasks.map (fun t => (tickStep now t).1)) ∧
    (reminderTick now tasks).1.length = tasks.length ∧
    (∀ t : Task,
        ((tickStep now t).1).id = t.id ∧
        ((tickStep now t).1).title = t.title ∧
        ((tickStep now t).1).notes = t.notes ∧
        ((tickStep now t).1).scheduledFor = t.scheduledFor ∧
        ((tickStep now t).1).completed = t.completed ∧
        ((tickStep now t).1).createdAt = t.createdAt ∧
        (((tickStep now t).1).notifiedAt = t.notifiedAt ∨
          (t.notifiedAt = none ∧ ((tickStep now t).1).notifiedAt = some now))) ∧
    ((∀ t ∈ tasks, eligible now t = false) →
        (reminderTick now tasks).1 = tasks) := by
  refine ⟨reminderTick_fst_perm now tasks, ?_, ?_, ?_⟩
  · rw [(reminderTick_fst_perm now tasks).length_eq, List.length_map]
  · intro t
    rw [tickStep_fst]
    by_cases h : eligible now t = true
    · have hn := (eligible_fields now t h).2.1
      simp [h, markedTask, hn]
    · simp [h]
  · intro hnone
    have hch : (tasks.map (tickStep now)).any (fun p => p.2.isSome) = false := by
      rw [tick_changed_eq, List.any_eq_false]
      intro t ht
      simp [hnone t ht]
    rw [reminderTick]
    dsimp only
    rw [hch]
    simp

/-- Witness for C10: a tick on a store with no eligible task returns the very
same list. -/
theorem c10_tick_frame_witness :
    (reminderTick 0 [sampleStretch]).1 = [sampleStretch] :=
  (c10_tick_frame 0 [sampleStretch]).2.2.2 (by decide)

/-! ## C1: each eligible task is alerted exactly once per due time -/

/-- C1: on a store with distinct ids, a tick at `now` marks an eligible task
(`completed=false`, `notifiedAt=null`, `scheduledFor ≤ now`) with
`notifiedAt = now` and emits exactly one alert for it; a second consecutive
tick (at any instant, with no snooze in between) emits no alert for that task
and leaves its `notifiedAt` non-null. -/
theorem c1_tick_alerts_once (now now2 : Nat) (tasks : List Task) (t : Task)
    (hmem : t ∈ tasks) (hc : t.completed = false) (hn : t.notifiedAt = none)
    (hs : t.scheduledFor ≤ now) (hnodup : (tasks.map Task.id).Nodup) :
    (∃ t1 ∈ (reminderTick now tasks).1,
        t1.id = t.id ∧ t1.notifiedAt = some now) ∧
    ((reminderTick now tasks).2.countP (fun a => a.taskId == t.id) = 1) ∧
    ((reminderTick now2 (reminderTick now tasks).1).2.countP
        (fun a => a.taskId == t.id) = 0) ∧
    (∀ t2 ∈ (reminderTick now2 (reminderTick now tasks).1).1,
        t2.id = t.id → t2.notifiedAt ≠ none) := by
  have helig : eligible now t = true := by
    simp [eligible, hc, hn, hs]
  have hmark : ∀ u ∈ (reminderTick now tasks).1, u.id = t.id →
      u = markedTask now t :=
    fun u hu hid => tick_marked_of_id now tasks t hmem hnodup helig u hu hid
  refine ⟨?_, ?_, ?_, ?_⟩
  · refine ⟨markedTask now t, ?_, rfl, rfl⟩
    have hmm : markedTask now t ∈ tasks.map (fun v => (tickStep now v).1) :=
      List.mem_map.mpr ⟨t, hmem, by simp [tickStep_fst, helig]⟩
    exact (reminderTick_fst_perm now tasks).mem_iff.mpr hmm
  · rw [tick_alert_countP]
    exact countP_id_unique tasks t (eligible now) hnodup hmem helig
  · rw [tick_alert_countP]
    apply countP_id_zero
    intro u hu hid
    rw [hmark u hu hid]
    simp [eligible, markedTask]
  · intro t2 h2mem h2id
    rcases mem_tick_fst now2 _ t2 h2mem with ⟨v, hv, rfl⟩
    have hvid : v.id = t.id := by
      rw [← tickStep_fst_id now2 v]
      exact h2id
    rw [hmark v hv hvid]
    have hne : eligible now2 (markedTask now t) = false := by
      simp [eligible, markedTask]
    rw [tickStep_fst, hne]
    simp [markedTask]

/-- Witness for C1: ticking a due one-task store at 600000 produces exactly
one alert; a follow-up tick at 615000 produces none. -/
theorem c1_tick_alerts_once_witness :
    ((reminderTick 600000 [sampleStretch]).2.countP
        (fun a => a.taskId == "a") = 1) ∧
    ((reminderTick 615000 (reminderTick 600000 [sampleStretch]).1).2.countP
        (fun a => a.taskId == "a") = 0) := by
  have h := c1_tick_alerts_once 600000 615000 [sampleStretch] sampleStretch
    (by simp) rfl rfl (by decide) (by decide)
  exact ⟨h.2.1, h.2.2.1⟩

end Planner
